import Mathlib

/-!
Verification of the batch synchronization pipeline in
`prover/bin/shadow-prove` (files `src/main.rs` and `src/shadow_rollup.rs`).

The Rust code is shallowly embedded: every outcome of an external RPC call
(ledger reads, transaction submission, receipt polling) is supplied by an
`Env` record, and each Rust function becomes a pure Lean function over that
record.  Machine integers are `Nat` with explicit `% 2 ^ 64` where the Rust
`u64` arithmetic can wrap, and `.to::<u64>()` conversions that panic on
overflow are modelled by an explicit bound check feeding a `panicked`
outcome.  Rust `Result`/`Option` become `Except`/`Option`; a Rust panic
(`unwrap` on an `Err`) is a dedicated constructor.
-/

namespace Morph

/-- `2 ^ 64`, the modulus of Rust `u64` arithmetic. -/
def u64Mod : Nat := 2 ^ 64

/-- Wrapping `u64` subtraction `a.wrapping_sub(b)` for `a b < u64Mod`. -/
def u64Sub (a b : Nat) : Nat := (a + u64Mod - b) % u64Mod

/-- One `CommitBatch` event log as used by `get_committed_batch`:
its block number, the value of `topics()[1]` (the indexed batch index,
a 256-bit big-endian word), and its optional transaction hash
(`log.transaction_hash`). -/
structure CommitLog where
  blockNumber : Nat
  topic1 : Nat
  txHash : Option Nat
deriving DecidableEq

/-- `BatchInfo { batch_index, start_block, end_block }` from the crate root. -/
structure BatchInfo where
  batchIndex : Nat
  startBlock : Nat
  endBlock : Nat
deriving DecidableEq

/-- `ShadowRollup::BatchStore`: the six 32-byte commitment fields submitted
to the shadow rollup, each modelled as a list of byte values. -/
structure BatchStore where
  prevStateRoot : List Nat
  postStateRoot : List Nat
  withdrawalRoot : List Nat
  dataHash : List Nat
  blobVersionedHash : List Nat
  sequencerSetVerifyHash : List Nat
deriving DecidableEq

/-- The responses of every external call one sync cycle can make.
Each field stands for one RPC surface used by `shadow_rollup.rs`:

* `latestBlockNumber`  — `l1_provider.get_block_number()`
* `commitBatchLogs`    — `l1_provider.get_logs(filter)` for the
  `CommitBatch` filter starting at the given block
* `batchDataStore`     — `l1_rollup.batchDataStore(index).call()`, yielding
  the stored `blockNumber`
* `blockTxCount`       — `l2_provider.get_block_transaction_count_by_number`
* `proveSuccess`       — `l1_shadow_rollup.isProveSuccess(index).call()`
* `transactionInput`   — `l1_provider.get_transaction_by_hash(h)`, reduced to
  the transaction's calldata `tx.input()` (the only part the code reads)
* `decodeCommitBatchCall` — `Rollup::commitBatchCall::abi_decode`, reduced to
  the `batchDataInput.parentBatchHeader` bytes it yields on success
* `sendCommitBatch`    — `l1_shadow_rollup.commitBatch(..).send()`
* `commitReceiptStatus` — `pending_tx.get_receipt()` reduced to the
  receipt's status flag
* `maxBlock`, `maxTxn` — `read_env_var("SHADOW_PROVING_MAX_BLOCK", 300)` and
  `read_env_var("SHADOW_PROVING_MAX_TXN", 600)`. -/
structure Env where
  latestBlockNumber : Except Unit Nat
  commitBatchLogs : Nat → Except Unit (List CommitLog)
  batchDataStore : Nat → Except Unit Nat
  blockTxCount : Nat → Except Unit (Option Nat)
  proveSuccess : Nat → Except Unit Bool
  transactionInput : Nat → Except Unit (Option (List Nat))
  decodeCommitBatchCall : List Nat → Option (List Nat)
  sendCommitBatch : Nat → BatchStore → Except Unit Unit
  commitReceiptStatus : Except Unit Bool
  maxBlock : Nat
  maxTxn : Nat

/-- A Rust computation that either panics or produces a value. -/
inductive PResult (α : Type) where
  | panicked : PResult α
  | value (v : α) : PResult α
deriving DecidableEq

/-- Terminal state of one `sync_batch` call: a propagated error (`?` on the
initial block-number fetch), a panic, or `Ok` with an optional `BatchInfo`. -/
inductive SyncOutcome where
  | panicked : SyncOutcome
  | err : SyncOutcome
  | ok (batch : Option BatchInfo) : SyncOutcome
deriving DecidableEq

/-- Result of one `sync_batch` call together with the commit submission it
attempted: `commit = some (index, store)` exactly when
`l1_shadow_rollup.commitBatch(index, store).send()` was invoked. -/
structure SyncTrace where
  outcome : SyncOutcome
  commit : Option (Nat × BatchStore)
deriving DecidableEq

/-- Execution trace of `get_committed_batch`:
`resolved` is the value `batch_blocks_inspect` returned when it succeeded
(the block range and total transaction count), and `blockCheckAt` is the
block range at the moment the block-count admission check
`blocks.1 - blocks.0 + 1 > SHADOW_PROVING_MAX_BLOCK` was evaluated
(`none` when control never got there). -/
structure GcbTrace where
  resolved : Option ((Nat × Nat) × Nat)
  blockCheckAt : Option (Nat × Nat)
deriving DecidableEq

/-- One 32-byte field of the `BatchStore`, from `sync_batch`:
`batch_header.get(a..a + 32).unwrap_or_default().try_into().unwrap_or_default()`.
`get` yields the slice iff `a + 32 ≤ len`; otherwise `unwrap_or_default`
yields the empty slice and the `try_into` to a 32-byte array fails, so the
second `unwrap_or_default` substitutes 32 zero bytes. -/
def sliceField (h : List Nat) (a : Nat) : List Nat :=
  if a + 32 ≤ h.length then (h.drop a).take 32 else List.replicate 32 0

/-- The `ShadowRollup::BatchStore { .. }` construction in `sync_batch`
(and verbatim in the two tests), with the source's fixed offsets. -/
def mkBatchStore (batchHeader : List Nat) : BatchStore where
  prevStateRoot := sliceField batchHeader 89
  postStateRoot := sliceField batchHeader 121
  withdrawalRoot := sliceField batchHeader 153
  dataHash := sliceField batchHeader 25
  blobVersionedHash := sliceField batchHeader 57
  sequencerSetVerifyHash := sliceField batchHeader 185

/-- Scan window start in `get_committed_batch`:
`if latest > 600 { latest - 600 } else { 1 }`. -/
def scanStart (latest : Nat) : Nat := if 600 < latest then latest - 600 else 1

/-- `logs.sort_by(|a, b| a.block_number.cmp(&b.block_number))`: Rust's
stable ascending sort by block number, modelled by the (stable)
insertion sort. -/
def sortedLogs (logs : List CommitLog) : List CommitLog :=
  List.insertionSort (fun a b => a.blockNumber ≤ b.blockNumber) logs

/-- `logs.get(logs.len() - 2)` after the sort: the second-to-last event. -/
def candidateLog (logs : List CommitLog) : Option CommitLog :=
  (sortedLogs logs)[(sortedLogs logs).length - 2]?

/-- `logs.last()` after the sort: the event whose transaction embeds the
candidate's parent header. -/
def headerSourceLog (logs : List CommitLog) : Option CommitLog :=
  (sortedLogs logs).getLast?

/-- Per-block transaction count in `batch_blocks_inspect`:
`get_block_transaction_count_by_number(i).unwrap_or_default().unwrap_or_default()` —
a failed read or an absent count silently becomes `0`. -/
def perBlockTxCount (env : Env) (i : Nat) : Nat :=
  match env.blockTxCount i with
  | .error _ => 0
  | .ok none => 0
  | .ok (some n) => n

/-- `batch_blocks_inspect`: read the block-number anchors of
`batch_index - 1` and `batch_index` from the rollup's batch-data store
(`None` on either read error, panic when an anchor does not fit `u64`),
then sum per-block transaction counts over `prev_bn + 1 .. current_bn + 1`.
The `+ 1` endpoint computations and the running `+=` wrap at `u64`. -/
def batchBlocksInspect (env : Env) (batchIndex : Nat) :
    PResult (Option ((Nat × Nat) × Nat)) :=
  match env.batchDataStore (batchIndex - 1) with
  | .error _ => .value none
  | .ok prevRaw =>
    if prevRaw < u64Mod then
      match env.batchDataStore batchIndex with
      | .error _ => .value none
      | .ok curRaw =>
        if curRaw < u64Mod then
          .value (some (((prevRaw + 1) % u64Mod, curRaw),
            ((List.range' ((prevRaw + 1) % u64Mod)
                (((curRaw + 1) % u64Mod) - ((prevRaw + 1) % u64Mod))).map
              (perBlockTxCount env)).sum % u64Mod))
        else .panicked
    else .panicked

/-- `batch_header_inspect`: fetch the transaction, fail on a missing
transaction, empty calldata, or an ABI-decode mismatch, and otherwise
return the embedded `parentBatchHeader` bytes. -/
def batchHeaderInspect (env : Env) (hash : Nat) : Option (List Nat) :=
  match env.transactionInput hash with
  | .error _ => none
  | .ok none => none
  | .ok (some data) =>
    if data.isEmpty then none
    else
      match env.decodeCommitBatchCall data with
      | none => none
      | some parentBatchHeader => some parentBatchHeader

/-- `is_prove_success`: the shadow rollup's `isProveSuccess` read,
`None` on a read error. -/
def isProveSuccess (env : Env) (batchIndex : Nat) : Option Bool :=
  match env.proveSuccess batchIndex with
  | .ok x => some x
  | .error _ => none

/-- `get_committed_batch`, together with its `GcbTrace`.  Mirrors the
source's control flow: get logs (provider error → `Err`), require a
non-empty window with at least 3 events (`Ok(None)` otherwise), sort and
select the second-to-last event, read its indexed topic as the candidate
batch index (`.to::<u64>()` panics when it does not fit, index 0 is a hard
`Err`), resolve bounds (`Err` when `batch_blocks_inspect` is `None`),
apply the `blocks.0 <= blocks.1` guard and the two admission ceilings,
then take the last event's transaction hash
(`transaction_hash.unwrap_or_default()`) and inspect the parent batch
header (`Err` when that fails). -/
def getCommittedBatch (env : Env) (latest : Nat) :
    PResult ((Except String (Option (BatchInfo × List Nat))) × GcbTrace) :=
  match env.commitBatchLogs (scanStart latest) with
  | .error _ =>
    .value (.error "l1_rollup.commit_batch.get_logs provider error", ⟨none, none⟩)
  | .ok logs =>
    if logs.isEmpty then .value (.ok none, ⟨none, none⟩)
    else if logs.length < 3 then .value (.ok none, ⟨none, none⟩)
    else
      match candidateLog logs with
      | none => .value (.error "find commit_batch log error", ⟨none, none⟩)
      | some clog =>
        if clog.topic1 < u64Mod then
          if clog.topic1 = 0 then .value (.error "batch_index is 0", ⟨none, none⟩)
          else
            match batchBlocksInspect env clog.topic1 with
            | .panicked => .panicked
            | .value none => .value (.error "batch_blocks_inspect none", ⟨none, none⟩)
            | .value (some ((startBlock, endBlock), totalTxn)) =>
              if startBlock ≤ endBlock then
                .value (.error "blocks is empty",
                  ⟨some ((startBlock, endBlock), totalTxn), none⟩)
              else if env.maxBlock < (u64Sub endBlock startBlock + 1) % u64Mod then
                .value (.ok none,
                  ⟨some ((startBlock, endBlock), totalTxn), some (startBlock, endBlock)⟩)
              else if env.maxTxn < totalTxn then
                .value (.ok none,
                  ⟨some ((startBlock, endBlock), totalTxn), some (startBlock, endBlock)⟩)
              else
                match headerSourceLog logs with
                | none =>
                  .value (.error "find commit_batch log error",
                    ⟨some ((startBlock, endBlock), totalTxn), some (startBlock, endBlock)⟩)
                | some hlog =>
                  match batchHeaderInspect env (hlog.txHash.getD 0) with
                  | none =>
                    .value (.error "Failed to inspect batch header",
                      ⟨some ((startBlock, endBlock), totalTxn), some (startBlock, endBlock)⟩)
                  | some batchHeader =>
                    .value (.ok (some (⟨clog.topic1, startBlock, endBlock⟩, batchHeader)),
                      ⟨some ((startBlock, endBlock), totalTxn), some (startBlock, endBlock)⟩)
        else .panicked

/-- `BatchSyncer::sync_batch`.  The initial `get_block_number()?` propagates
an error; any `Err` from `get_committed_batch` is logged and becomes
`Ok(None)`; `is_prove_success(..).unwrap_or(true)` skips the cycle; the
`BatchStore` is assembled and `commitBatch(..).send()` attempted (send error
→ `Ok(None)`); `get_receipt().unwrap()` panics on a polling error; a failed
receipt status is `Ok(None)`; success returns the `BatchInfo`. -/
def syncBatch (env : Env) : SyncTrace :=
  match env.latestBlockNumber with
  | .error _ => ⟨.err, none⟩
  | .ok latest =>
    match getCommittedBatch env latest with
    | .panicked => ⟨.panicked, none⟩
    | .value (.error _, _) => ⟨.ok none, none⟩
    | .value (.ok none, _) => ⟨.ok none, none⟩
    | .value (.ok (some (batchInfo, batchHeader)), _) =>
      if (isProveSuccess env batchInfo.batchIndex).getD true then ⟨.ok none, none⟩
      else
        let batchStore := mkBatchStore batchHeader
        match env.sendCommitBatch batchInfo.batchIndex batchStore with
        | .error _ => ⟨.ok none, some (batchInfo.batchIndex, batchStore)⟩
        | .ok _ =>
          match env.commitReceiptStatus with
          | .error _ => ⟨.panicked, some (batchInfo.batchIndex, batchStore)⟩
          | .ok status =>
            if status then ⟨.ok (some batchInfo), some (batchInfo.batchIndex, batchStore)⟩
            else ⟨.ok none, some (batchInfo.batchIndex, batchStore)⟩

/-- Fate of the process after one iteration of the `main` loop. -/
inductive CycleOutcome where
  | panicked : CycleOutcome
  | continued : CycleOutcome
deriving DecidableEq

/-- One iteration of the scheduler loop in `main.rs`: run `sync_batch`;
on `Ok(Some(batch))` hand it to the external prover (its `Result` is the
`proveResult` argument; `ShadowProver::prove` itself is outside these two
files); any `Err` from either stage is logged and the loop continues; a
panic anywhere terminates the process. -/
def loopIteration (env : Env) (proveResult : Except Unit Unit) : CycleOutcome :=
  match (syncBatch env).outcome with
  | .panicked => .panicked
  | .err => .continued
  | .ok none => .continued
  | .ok (some _) =>
    match proveResult with
    | .error _ => .continued
    | .ok _ => .continued

/-! ### Concrete environments used as test inputs and counterexamples -/

/-- Three commit events (deliberately out of block order) at blocks
100, 150, 200 carrying batch indices 41, 42, 43 and transaction
hashes 5, 6, 7. -/
def logsA : List CommitLog :=
  [⟨150, 42, some 6⟩, ⟨100, 41, some 5⟩, ⟨200, 43, some 7⟩]

/-- A fully successful cycle environment, except that the decoded parent
batch header is the empty blob: latest block 700, the `logsA` scan window,
batch anchors `prev_bn = 5` for index 41 and `current_bn = 5` for index 42
(so the resolved range is the inverted `(6, 5)`, which the inverted
emptiness guard lets through), zero transactions per block, proof state
`false`, the header-source transaction `7` present with one-byte calldata
that ABI-decodes to the empty header, submission accepted, receipt
successful, default ceilings. -/
def baseEnv : Env where
  latestBlockNumber := .ok 700
  commitBatchLogs := fun _ => .ok logsA
  batchDataStore := fun i =>
    if i = 41 then .ok 5 else if i = 42 then .ok 5 else .error ()
  blockTxCount := fun _ => .ok (some 0)
  proveSuccess := fun _ => .ok false
  transactionInput := fun h => if h = 7 then .ok (some [1]) else .error ()
  decodeCommitBatchCall := fun _ => some []
  sendCommitBatch := fun _ _ => .ok ()
  commitReceiptStatus := .ok true
  maxBlock := 300
  maxTxn := 600

/-- `baseEnv` with a well-formed resolved range: anchors 100 and 102,
giving the block range `(101, 102)`. -/
def envWellFormed : Env :=
  { baseEnv with
    batchDataStore := fun i =>
      if i = 41 then .ok 100 else if i = 42 then .ok 102 else .error () }

/-- `envWellFormed` with 400 transactions in each of the two resolved
blocks, so the resolved volume 800 exceeds the default ceiling 600. -/
def envTxnBig : Env :=
  { envWellFormed with blockTxCount := fun _ => .ok (some 400) }

/-- `baseEnv` with the shadow ledger reporting the batch already proven. -/
def envProven : Env :=
  { baseEnv with proveSuccess := fun _ => .ok true }

/-- `baseEnv` with the header-source transaction missing, so header
extraction fails. -/
def envNoTx : Env :=
  { baseEnv with transactionInput := fun _ => .ok none }

/-- `baseEnv` with receipt polling failing. -/
def envReceiptErr : Env :=
  { baseEnv with commitReceiptStatus := .error () }

/-- `envWellFormed` with the per-block transaction count read failing at
block 101 and returning 9 elsewhere. -/
def envTxFail : Env :=
  { envWellFormed with
    blockTxCount := fun i => if i = 101 then .error () else .ok (some 9) }

/-- Three commit events as in `logsA`, except that the second-to-last
event (block 150) carries the indexed batch index 0. -/
def logsZ : List CommitLog :=
  [⟨150, 0, some 6⟩, ⟨100, 41, some 5⟩, ⟨200, 43, some 7⟩]

/-- `baseEnv` with the scan window returning `logsZ`, so the selected
candidate batch index is 0. -/
def envZeroIdx : Env :=
  { baseEnv with commitBatchLogs := fun _ => .ok logsZ }

/-- A 32-byte zero field, the value `unwrap_or_default` substitutes. -/
def zeroWord : List Nat := List.replicate 32 0

/-- The block-number comparison used by the log sort. -/
def logLe (a b : CommitLog) : Prop := a.blockNumber ≤ b.blockNumber

instance : DecidableRel logLe := fun a b => Nat.decLe a.blockNumber b.blockNumber

instance : IsTotal CommitLog logLe := ⟨fun a b => Nat.le_total a.blockNumber b.blockNumber⟩

instance : IsTrans CommitLog logLe := ⟨fun _ _ _ => Nat.le_trans⟩

/-! ### Helper lemmas -/

theorem sortedLogs_eq (logs : List CommitLog) :
    sortedLogs logs = List.insertionSort logLe logs := rfl

/-- Whenever `get_committed_batch` evaluates the block-count admission
check, the block range at that point is inverted. -/
theorem gcb_blockCheck_inverted (env : Env) (latest : Nat)
    (res : Except String (Option (BatchInfo × List Nat))) (tr : GcbTrace) (s e : Nat)
    (h : getCommittedBatch env latest = .value (res, tr))
    (hb : tr.blockCheckAt = some (s, e)) : e < s := by
  unfold getCommittedBatch at h
  repeat' split at h
  all_goals (cases h <;> simp_all)

/-- If bounds resolution succeeded with a range violating either admission
ceiling (in exact arithmetic), `get_committed_batch` ends in the
`blocks is empty` error or in `Ok(None)`. -/
theorem gcb_resolved_reject (env : Env) (latest : Nat)
    (res : Except String (Option (BatchInfo × List Nat))) (tr : GcbTrace) (s e txn : Nat)
    (h : getCommittedBatch env latest = .value (res, tr))
    (hr : tr.resolved = some ((s, e), txn))
    (hbig : s + env.maxBlock < e + 1 ∨ env.maxTxn < txn) :
    res = .error "blocks is empty" ∨ res = .ok none := by
  unfold getCommittedBatch at h
  repeat' split at h
  all_goals (cases h <;> simp_all) <;> omega

/-! ### Claim theorems -/

/-- C1: the claim says an out-of-range header slice is a decode error that
skips the cycle and a zero-filled field is never submitted.  The code does
the opposite: with the empty header blob (every one of the six 32-byte
ranges out of bounds), `sync_batch` builds the all-zero `BatchStore` via
`unwrap_or_default`, submits it, and completes the cycle successfully. -/
theorem c1_zero_filled_submission :
    syncBatch baseEnv = ⟨.ok (some ⟨42, 6, 5⟩), some (42, mkBatchStore [])⟩ ∧
    mkBatchStore [] = ⟨zeroWord, zeroWord, zeroWord, zeroWord, zeroWord, zeroWord⟩ :=
  ⟨rfl, rfl⟩

/-- C2: the claim says the emptiness guard soft-fails exactly when
`end ≤ start` and lets `start < end` proceed.  The code's guard is
inverted: the well-formed resolved range `(101, 102)` is rejected with
`Err("blocks is empty")`, while the inverted range `(6, 5)` passes the
guard and reaches the admission checks and a successful cycle. -/
theorem c2_emptiness_guard_inverted :
    getCommittedBatch envWellFormed 700 =
      .value (.error "blocks is empty", ⟨some ((101, 102), 0), none⟩) ∧
    getCommittedBatch baseEnv 700 =
      .value (.ok (some (⟨42, 6, 5⟩, [])), ⟨some ((6, 5), 0), some (6, 5)⟩) :=
  ⟨rfl, rfl⟩

/-- C3: whenever `get_committed_batch` reaches the block-count admission
check, the preceding (inverted) guard guarantees `end_block < start_block`,
which is exactly the condition under which the `u64` expression
`end_block - start_block` underflows; equivalently, the ceiling is never
evaluated on a range with `start_block ≤ end_block`. -/
theorem c3_admission_check_underflow (env : Env) (latest : Nat)
    (res : Except String (Option (BatchInfo × List Nat))) (tr : GcbTrace) (s e : Nat)
    (h : getCommittedBatch env latest = .value (res, tr))
    (hb : tr.blockCheckAt = some (s, e)) :
    e < s :=
  gcb_blockCheck_inverted env latest res tr s e h hb

/-- Witness for C3: in the concrete run of `baseEnv` the block-count check
is evaluated at the inverted range `(6, 5)`. -/
theorem c3_admission_check_underflow_witness :
    getCommittedBatch baseEnv 700 =
      .value (.ok (some (⟨42, 6, 5⟩, [])), ⟨some ((6, 5), 0), some (6, 5)⟩) ∧ 5 < 6 :=
  ⟨rfl, c3_admission_check_underflow baseEnv 700 (.ok (some (⟨42, 6, 5⟩, [])))
    ⟨some ((6, 5), 0), some (6, 5)⟩ 6 5 rfl rfl⟩

/-- C4: if the cycle reaches the proof-state check with candidate batch
`bi` and the shadow ledger's `isProveSuccess` read returns `true` or
errors (`unwrap_or(true)`), `sync_batch` returns `Ok(None)` and
`commitBatch` is never invoked. -/
theorem c4_prove_success_skips (env : Env) (latest : Nat)
    (bi : BatchInfo) (hdr : List Nat) (tr : GcbTrace)
    (hlat : env.latestBlockNumber = .ok latest)
    (hgcb : getCommittedBatch env latest = .value (.ok (some (bi, hdr)), tr))
    (hps : env.proveSuccess bi.batchIndex = .ok true ∨
           env.proveSuccess bi.batchIndex = .error ()) :
    syncBatch env = ⟨.ok none, none⟩ := by
  rcases hps with hps | hps <;> simp [syncBatch, hlat, hgcb, isProveSuccess, hps]

/-- Witness for C4: `envProven` reports the batch already proven, and the
cycle ends with no batch and no commit. -/
theorem c4_prove_success_skips_witness : syncBatch envProven = ⟨.ok none, none⟩ :=
  c4_prove_success_skips envProven 700 ⟨42, 6, 5⟩ []
    ⟨some ((6, 5), 0), some (6, 5)⟩ rfl rfl (Or.inl rfl)

/-- C5 counterexample: the claim says a header-extraction failure makes the
cycle terminate in the Error state.  In `envNoTx` the header-source
transaction cannot be fetched, `batch_header_inspect` fails, and
`get_committed_batch` returns the extraction error — yet `sync_batch`
swallows it and returns `Ok(None)` (NoOp), not an error. -/
theorem c5_decode_error_not_error_state :
    batchHeaderInspect envNoTx 7 = none ∧
    getCommittedBatch envNoTx 700 =
      .value (.error "Failed to inspect batch header", ⟨some ((6, 5), 0), some (6, 5)⟩) ∧
    syncBatch envNoTx = ⟨.ok none, none⟩ ∧
    (syncBatch envNoTx).outcome ≠ .err :=
  ⟨rfl, rfl, rfl, by decide⟩

/-- C5 (amended): whenever header extraction fails — missing transaction,
empty calldata, or ABI-decode mismatch — `get_committed_batch` returns the
`Failed to inspect batch header` error, which `sync_batch` logs and
converts to `Ok(None)`: the cycle degrades to NoOp with no commit, like the
other failing branches of candidate selection; `sync_batch` itself returns
an error only when the initial block-number fetch fails. -/
theorem c5_decode_error_noop (env : Env) (latest : Nat) (tr : GcbTrace)
    (hlat : env.latestBlockNumber = .ok latest)
    (hgcb : getCommittedBatch env latest =
      .value (.error "Failed to inspect batch header", tr)) :
    syncBatch env = ⟨.ok none, none⟩ := by
  simp [syncBatch, hlat, hgcb]

/-- Witness for C5 (amended): the extraction failure of `envNoTx` ends the
cycle in NoOp. -/
theorem c5_decode_error_noop_witness : syncBatch envNoTx = ⟨.ok none, none⟩ :=
  c5_decode_error_noop envNoTx 700 ⟨some ((6, 5), 0), some (6, 5)⟩ rfl rfl

/-- C6: the claim says no error from a single cycle terminates the process.
But when receipt polling for the submitted commit transaction returns an
error, `get_receipt().await.unwrap()` panics and the process dies: in
`envReceiptErr` the commit was submitted and the loop iteration panics
instead of continuing. -/
theorem c6_receipt_error_panics :
    loopIteration envReceiptErr (.ok ()) = .panicked ∧
    (syncBatch envReceiptErr).commit = some (42, mkBatchStore []) :=
  ⟨rfl, rfl⟩

/-- C7: whenever bounds resolution succeeds with a range whose exact block
count `end - start + 1` exceeds the configured maximum, or whose resolved
transaction volume exceeds the configured maximum, `sync_batch` produces
`Ok(None)` — never an error — and no commit is submitted that cycle. -/
theorem c7_admission_noop (env : Env) (latest : Nat)
    (res : Except String (Option (BatchInfo × List Nat))) (tr : GcbTrace) (s e txn : Nat)
    (hlat : env.latestBlockNumber = .ok latest)
    (hgcb : getCommittedBatch env latest = .value (res, tr))
    (hres : tr.resolved = some ((s, e), txn))
    (hbig : s + env.maxBlock < e + 1 ∨ env.maxTxn < txn) :
    syncBatch env = ⟨.ok none, none⟩ := by
  rcases gcb_resolved_reject env latest res tr s e txn hgcb hres hbig with hr | hr <;>
    subst hr <;> simp [syncBatch, hlat, hgcb]

/-- Witness for C7: `envTxnBig` resolves the range `(101, 102)` with 800
transactions, above the 600 ceiling, and the cycle ends in NoOp with no
commit. -/
theorem c7_admission_noop_witness : syncBatch envTxnBig = ⟨.ok none, none⟩ :=
  c7_admission_noop envTxnBig 700 (.error "blocks is empty")
    ⟨some ((101, 102), 800), none⟩ 101 102 800 rfl rfl rfl (Or.inr (by decide))

/-- C8: with at least 3 commit events in the window, the events are sorted
ascending by block number (the sorted list is an ordered permutation of the
scan result); the candidate batch index is read from the second-to-last
sorted event's first indexed topic: if that topic is 0 the cycle ends in
the hard error `Err("batch_index is 0")`, and whenever the cycle produces
a batch its index is that topic (hence non-zero) and its header was
extracted from the last sorted event's transaction hash. -/
theorem c8_candidate_selection (env : Env) (latest : Nat) (logs : List CommitLog)
    (clog hlog : CommitLog)
    (hlogs : env.commitBatchLogs (scanStart latest) = .ok logs)
    (hlen : 3 ≤ logs.length)
    (hcand : candidateLog logs = some clog)
    (hlast : headerSourceLog logs = some hlog) :
    List.Sorted logLe (sortedLogs logs) ∧
    (sortedLogs logs).Perm logs ∧
    (clog.topic1 < u64Mod → clog.topic1 = 0 →
      getCommittedBatch env latest = .value (.error "batch_index is 0", ⟨none, none⟩)) ∧
    (∀ bi hdr tr, getCommittedBatch env latest = .value (.ok (some (bi, hdr)), tr) →
      bi.batchIndex = clog.topic1 ∧ clog.topic1 ≠ 0 ∧
      batchHeaderInspect env (hlog.txHash.getD 0) = some hdr) := by
  refine ⟨?_, ?_, ?_, ?_⟩
  · rw [sortedLogs_eq]
    exact List.sorted_insertionSort logLe logs
  · rw [sortedLogs_eq]
    exact List.perm_insertionSort logLe logs
  · intro hu h0
    have h1 : logs.isEmpty = false := by
      cases logs
      · simp at hlen
      · rfl
    have h2 : ¬ logs.length < 3 := Nat.not_lt.mpr hlen
    simp [getCommittedBatch, hlogs, h1, h2, hcand, h0, hu]
    decide
  · intro bi hdr tr hgcb
    unfold getCommittedBatch at hgcb
    repeat' split at hgcb
    all_goals (cases hgcb <;> simp_all)

/-- Witness for C8: scenario A — events at blocks 100, 150, 200 with batch
indices 41, 42, 43; the candidate is 42 (second-to-last) and the header
comes from the transaction of the event at block 200; and in `envZeroIdx`,
where the second-to-last event carries index 0, the cycle ends in the hard
error `batch_index is 0`. -/
theorem c8_candidate_selection_witness :
    (List.Sorted logLe (sortedLogs logsA) ∧
     (sortedLogs logsA).Perm logsA ∧
     (⟨42, 6, 5⟩ : BatchInfo).batchIndex = (⟨150, 42, some 6⟩ : CommitLog).topic1 ∧
     (⟨150, 42, some 6⟩ : CommitLog).topic1 ≠ 0 ∧
     batchHeaderInspect baseEnv ((⟨200, 43, some 7⟩ : CommitLog).txHash.getD 0) = some []) ∧
    getCommittedBatch envZeroIdx 700 =
      .value (.error "batch_index is 0", ⟨none, none⟩) := by
  have hA := c8_candidate_selection baseEnv 700 logsA ⟨150, 42, some 6⟩
    ⟨200, 43, some 7⟩ rfl (by decide) rfl rfl
  have hZ := c8_candidate_selection envZeroIdx 700 logsZ ⟨150, 0, some 6⟩
    ⟨200, 43, some 7⟩ rfl (by decide) rfl rfl
  have hs := hA.2.2.2 ⟨42, 6, 5⟩ [] ⟨some ((6, 5), 0), some (6, 5)⟩ rfl
  exact ⟨⟨hA.1, hA.2.1, hs.1, hs.2.1, hs.2.2⟩, hZ.2.2.1 (by decide) rfl⟩

/-- C9: for a header blob of length at least 217 bytes, the six extracted
fields are exactly the blob's bytes at the documented offsets:
dataHash 25..57, blobVersionedHash 57..89, prevStateRoot 89..121,
postStateRoot 121..153, withdrawalRoot 153..185,
sequencerSetVerifyHash 185..217. -/
theorem c9_header_offsets (h : List Nat) (hlen : 217 ≤ h.length)
    (i : Nat) (hi : i < 32) :
    (mkBatchStore h).dataHash.getD i 0 = h.getD (25 + i) 0 ∧
    (mkBatchStore h).blobVersionedHash.getD i 0 = h.getD (57 + i) 0 ∧
    (mkBatchStore h).prevStateRoot.getD i 0 = h.getD (89 + i) 0 ∧
    (mkBatchStore h).postStateRoot.getD i 0 = h.getD (121 + i) 0 ∧
    (mkBatchStore h).withdrawalRoot.getD i 0 = h.getD (153 + i) 0 ∧
    (mkBatchStore h).sequencerSetVerifyHash.getD i 0 = h.getD (185 + i) 0 := by
  have key : ∀ a : Nat, a + 32 ≤ h.length →
      (sliceField h a).getD i 0 = h.getD (a + i) 0 := by
    intro a ha
    unfold sliceField
    rw [if_pos ha, List.getD_eq_getElem?_getD, List.getD_eq_getElem?_getD,
      List.getElem?_take, if_pos hi, List.getElem?_drop]
  exact ⟨key 25 (by omega), key 57 (by omega), key 89 (by omega),
    key 121 (by omega), key 153 (by omega), key 185 (by omega)⟩

set_option maxRecDepth 4000 in
/-- Witness for C9: the 250-byte blob whose byte at position `j` is `j`. -/
theorem c9_header_offsets_witness :
    217 ≤ (List.range 250).length ∧
    ((mkBatchStore (List.range 250)).dataHash.getD 0 0 = (List.range 250).getD (25 + 0) 0 ∧
     (mkBatchStore (List.range 250)).blobVersionedHash.getD 0 0 =
       (List.range 250).getD (57 + 0) 0 ∧
     (mkBatchStore (List.range 250)).prevStateRoot.getD 0 0 =
       (List.range 250).getD (89 + 0) 0 ∧
     (mkBatchStore (List.range 250)).postStateRoot.getD 0 0 =
       (List.range 250).getD (121 + 0) 0 ∧
     (mkBatchStore (List.range 250)).withdrawalRoot.getD 0 0 =
       (List.range 250).getD (153 + 0) 0 ∧
     (mkBatchStore (List.range 250)).sequencerSetVerifyHash.getD 0 0 =
       (List.range 250).getD (185 + 0) 0) :=
  ⟨by decide, c9_header_offsets (List.range 250) (by decide) 0 (by decide)⟩

/-- C10: whenever both anchor reads succeed, `batch_blocks_inspect`
succeeds no matter what the per-block transaction count calls return, and
a block whose count read fails or is absent contributes 0 to the total —
so a read failure never fails the cycle and the admission total can
under-count. -/
theorem c10_txcount_default_zero (env : Env) (idx prevRaw curRaw : Nat)
    (h1 : env.batchDataStore (idx - 1) = .ok prevRaw) (h2 : prevRaw < u64Mod)
    (h3 : env.batchDataStore idx = .ok curRaw) (h4 : curRaw < u64Mod)
    (i : Nat)
    (hf : env.blockTxCount i = .error () ∨ env.blockTxCount i = .ok none) :
    batchBlocksInspect env idx =
      .value (some (((prevRaw + 1) % u64Mod, curRaw),
        ((List.range' ((prevRaw + 1) % u64Mod)
            (((curRaw + 1) % u64Mod) - ((prevRaw + 1) % u64Mod))).map
          (perBlockTxCount env)).sum % u64Mod)) ∧
    perBlockTxCount env i = 0 := by
  constructor
  · simp [batchBlocksInspect, h1, h2, h3, h4]
  · rcases hf with hf | hf <;> simp [perBlockTxCount, hf]

/-- Witness for C10: in `envTxFail` the count read for block 101 fails and
contributes 0, block 102 contributes 9, and the inspection still succeeds
with total 9. -/
theorem c10_txcount_default_zero_witness :
    batchBlocksInspect envTxFail 42 = .value (some ((101, 102), 9)) ∧
    perBlockTxCount envTxFail 101 = 0 := by
  have h := c10_txcount_default_zero envTxFail 42 100 102 rfl (by decide) rfl (by decide)
    101 (Or.inl rfl)
  exact ⟨h.1.trans (by rfl), h.2⟩

end Morph
